import Mathlib

/-
Shallow embedding of the workout API handlers of this repository.

The authoritative handler code is src/internal/api/workout_handler.go
(HandleWorkoutByID, HandleCreateWorkout, HandleUpdateWorkoutByID,
HandleDeleteWorkoutByID) together with src/internal/utils/utils.go
(ReadIDParam).  The store implementation (PostgresWorkoutStore), the
middleware (GetUser / AnonymousUser) and the token service are not under
src — only their callers are — so the handler is modelled as a pure
function of the results those collaborators would return, and the missing
parts are modelled from the spec where a claim needs them (each such
definition is marked "Modelled from the spec").

A handler run is represented as a pair: the ordered list of HTTP
responses it writes, and the ordered list of store calls it makes.
-/

/-- Modelled from the spec: store.WorkoutEntry is not under src (only its
use as a slice element in the update handler is).  Spec section 3: id,
owning workout id, exercise name, set count, rep count, weight, free-text
notes. -/
structure WorkoutEntry where
  id : Int
  workoutID : Int
  exerciseName : String
  sets : Int
  reps : Int
  weight : Int
  notes : String
deriving DecidableEq, Repr

/-- The store.Workout struct, as used by the handlers and described by the
spec and the repository docs: id, user_id, title, description,
duration_minutes, calories_burned, entries. -/
structure Workout where
  ID : Int
  UserID : Int
  Title : String
  Description : String
  DurationMinutes : Int
  CaloriesBurned : Int
  Entries : List WorkoutEntry
deriving DecidableEq, Repr

/-- The caller identity; the handlers only read currentUser.ID. -/
structure User where
  ID : Int
deriving DecidableEq, Repr

/-- Result of middleware.GetUser(req): the Go value is a pointer that can
be nil, the AnonymousUser sentinel, or a real user.  The handlers guard
with: currentUser == nil || currentUser == store.AnonymousUser. -/
inductive CurrentUser where
  | missing
  | anonymous
  | user (u : User)
deriving DecidableEq, Repr

/-- Body of one written HTTP response: a JSON envelope holding a workout
value (possibly null), a JSON envelope holding a message under a key, a
plain-text body (http.Error / http.NotFound), or an empty body
(WriteHeader only). -/
inductive RespBody where
  | jsonWorkout (w : Option Workout)
  | jsonMsg (key msg : String)
  | text (msg : String)
  | empty
deriving DecidableEq, Repr

/-- One written HTTP response: status code and body. -/
structure Response where
  status : Nat
  body : RespBody
deriving DecidableEq, Repr

/-- Result of the store's GetWorkoutOwner: the owner id, sql.ErrNoRows, or
any other error. -/
inductive GetOwnerResult where
  | ok (ownerID : Int)
  | noRows
  | otherErr
deriving DecidableEq, Repr

/-- Result of the store's DeleteWorkout: success, sql.ErrNoRows, or any
other error. -/
inductive DeleteResult where
  | ok
  | noRows
  | otherErr
deriving DecidableEq, Repr

/-- The results the store.WorkoutStore collaborator returns for each call
the handlers can make.  The handlers receive this as an interface value;
its implementation is outside src, so it is an oracle parameter here. -/
structure StoreBehavior where
  getWorkoutByID : Int → Except Unit (Option Workout)
  getWorkoutOwner : Int → GetOwnerResult
  createWorkout : Workout → Except Unit Workout
  updateWorkout : Workout → Except Unit Unit
  deleteWorkout : Int → DeleteResult

/-- Trace entry: one call a handler makes on the store, with its argument. -/
inductive StoreCall where
  | getByID (id : Int)
  | getOwner (id : Int)
  | create (w : Workout)
  | update (w : Workout)
  | delete (id : Int)
deriving DecidableEq, Repr

/-- Whether a store call mutates rows (CreateWorkout, UpdateWorkout,
DeleteWorkout) as opposed to a pure read (GetWorkoutByID, GetWorkoutOwner). -/
def StoreCall.isMutation : StoreCall → Bool
  | .create _ => true
  | .update _ => true
  | .delete _ => true
  | .getByID _ => false
  | .getOwner _ => false

/-- Modelled from the spec: the relational store implementation is not
under src.  Spec section 4.4 semantics of the store calls over a list of
workout rows: reads leave the rows unchanged, Create inserts, Update
replaces the row with the matching id, Delete removes it (children cascade
with the parent). -/
def applyCall (rows : List Workout) : StoreCall → List Workout
  | .getByID _ => rows
  | .getOwner _ => rows
  | .create w => rows ++ [w]
  | .update w => rows.map (fun r => if r.ID = w.ID then w else r)
  | .delete id => rows.filter (fun r => decide (r.ID ≠ id))

/-- Effect of a whole call trace on the stored rows. -/
def applyCalls (rows : List Workout) (calls : List StoreCall) : List Workout :=
  calls.foldl applyCall rows

/-- Modelled from the spec: the PostgresWorkoutStore GetWorkoutByID is not
under src (only its callers are).  Spec section 4.4: GetByID returns nil,
not an error, when the id is absent. -/
def specGetWorkoutByID (rows : List Workout) (id : Int) : Except Unit (Option Workout) :=
  .ok (rows.find? (fun r => r.ID == id))

/-- Digit run of strconv.ParseInt base 10: accumulates the value of a
nonempty run of ASCII digits, failing on any other character. -/
def parseDigitsAux : Nat → List Char → Option Nat
  | acc, [] => some acc
  | acc, c :: rest =>
      if c.isDigit then parseDigitsAux (acc * 10 + (c.toNat - 48)) rest else none

/-- Smallest int64 value, for the ParseInt range check. -/
def int64Min : Int := -(2 ^ 63)

/-- Largest int64 value, for the ParseInt range check. -/
def int64Max : Int := 2 ^ 63 - 1

/-- strconv.ParseInt(s, 10, 64): an optional sign followed by at least one
digit, value within the int64 range; anything else is an error (none). -/
def parseInt64 (s : String) : Option Int :=
  match s.toList with
  | [] => none
  | '+' :: rest =>
      if rest = [] then none
      else
        match parseDigitsAux 0 rest with
        | none => none
        | some n => if (n : Int) ≤ int64Max then some (n : Int) else none
  | '-' :: rest =>
      if rest = [] then none
      else
        match parseDigitsAux 0 rest with
        | none => none
        | some n => if int64Min ≤ -(n : Int) then some (-(n : Int)) else none
  | cs =>
      match parseDigitsAux 0 cs with
      | none => none
      | some n => if (n : Int) ≤ int64Max then some (n : Int) else none

/-- utils.ReadIDParam: reads the id URL parameter (chi returns the empty
string when it is absent) and parses it; on failure returns 0 together
with the error. -/
def ReadIDParam (idParam : String) : Except String Int :=
  if idParam = "" then .error "Invalid id parameter"
  else
    match parseInt64 idParam with
    | some id => .ok id
    | none => .error "Invalid id parameter type"

/-- HandleWorkoutByID (GET): bad id yields 400; a store error yields 500;
otherwise 200 with the store result (possibly null) in the envelope. -/
def HandleWorkoutByID (st : StoreBehavior) (idParam : String) :
    List Response × List StoreCall :=
  match ReadIDParam idParam with
  | .error _ => ([⟨400, .jsonMsg "error" "Invalid workout id"⟩], [])
  | .ok workoutID =>
      match st.getWorkoutByID workoutID with
      | .error _ => ([⟨500, .jsonMsg "error" "Internal Server Error"⟩], [.getByID workoutID])
      | .ok workout => ([⟨200, .jsonWorkout workout⟩], [.getByID workoutID])

/-- HandleCreateWorkout (POST): decode body, reject nil or anonymous
identity with 400, overwrite the decoded workout's UserID with the
caller's id, then CreateWorkout; 500 on store error, 201 with the created
workout on success. -/
def HandleCreateWorkout (st : StoreBehavior) (body : Except Unit Workout)
    (currentUser : CurrentUser) : List Response × List StoreCall :=
  match body with
  | .error _ => ([⟨400, .jsonMsg "error" "Invalid request sent"⟩], [])
  | .ok workout =>
      match currentUser with
      | .missing => ([⟨400, .jsonMsg "error" "you must be logged in"⟩], [])
      | .anonymous => ([⟨400, .jsonMsg "error" "you must be logged in"⟩], [])
      | .user u =>
          match st.createWorkout { workout with UserID := u.ID } with
          | .error _ =>
              ([⟨500, .jsonMsg "error" "failed to create workout"⟩],
                [.create { workout with UserID := u.ID }])
          | .ok createWorkout =>
              ([⟨201, .jsonWorkout (some createWorkout)⟩],
                [.create { workout with UserID := u.ID }])

/-- The anonymous struct decoded from the update request body: pointer
fields are Option (nil pointer = absent field), and the Entries slice is
Option (a nil Go slice, from an absent or null field, versus a present
array, possibly empty). -/
structure UpdateWorkoutRequest where
  Title : Option String
  Description : Option String
  DurationMinutes : Option Int
  CaloriesBurned : Option Int
  Entries : Option (List WorkoutEntry)
deriving DecidableEq, Repr

/-- The field-by-field conditional assignments of HandleUpdateWorkoutByID:
each non-nil pointer field overwrites the existing value, and a non-nil
Entries slice replaces the whole entry collection. -/
def applyUpdateFields (existing : Workout) (upd : UpdateWorkoutRequest) : Workout :=
  let w0 := match upd.Title with
    | some t => { existing with Title := t }
    | none => existing
  let w1 := match upd.Description with
    | some d => { w0 with Description := d }
    | none => w0
  let w2 := match upd.DurationMinutes with
    | some d => { w1 with DurationMinutes := d }
    | none => w1
  let w3 := match upd.CaloriesBurned with
    | some c => { w2 with CaloriesBurned := c }
    | none => w2
  match upd.Entries with
  | some e => { w3 with Entries := e }
  | none => w3

/-- Body of HandleUpdateWorkoutByID from the GetWorkoutByID fetch onward
(the source applies the field updates before the identity check; that
application is pure, so the embedding computes it where it is first
used). -/
def updateCore (st : StoreBehavior) (workoutID : Int)
    (body : Except Unit UpdateWorkoutRequest) (currentUser : CurrentUser) :
    List Response × List StoreCall :=
  match st.getWorkoutByID workoutID with
  | .error _ => ([⟨500, .jsonMsg "error" "Internal server error"⟩], [.getByID workoutID])
  | .ok none => ([⟨404, .text "404 page not found"⟩], [.getByID workoutID])
  | .ok (some existingWorkout) =>
      match body with
      | .error _ => ([⟨400, .jsonMsg "error" "Invalid request payload"⟩], [.getByID workoutID])
      | .ok upd =>
          match currentUser with
          | .missing =>
              ([⟨400, .jsonMsg "error" "you must be logged in to update"⟩], [.getByID workoutID])
          | .anonymous =>
              ([⟨400, .jsonMsg "error" "you must be logged in to update"⟩], [.getByID workoutID])
          | .user u =>
              match st.getWorkoutOwner workoutID with
              | .noRows =>
                  ([⟨400, .jsonMsg "error" "workout does not exists"⟩],
                    [.getByID workoutID, .getOwner workoutID])
              | .otherErr =>
                  ([⟨500, .jsonMsg "error" "internal server error"⟩],
                    [.getByID workoutID, .getOwner workoutID])
              | .ok workoutOwner =>
                  if workoutOwner ≠ u.ID then
                    ([⟨403, .jsonMsg "error" "you are not authorized to update this workout"⟩],
                      [.getByID workoutID, .getOwner workoutID])
                  else
                    let updated := { applyUpdateFields existingWorkout upd with ID := workoutID }
                    match st.updateWorkout updated with
                    | .error _ =>
                        ([⟨500, .jsonMsg "error" "Internal server error"⟩],
                          [.getByID workoutID, .getOwner workoutID, .update updated])
                    | .ok _ =>
                        ([⟨200, .jsonWorkout (some updated)⟩],
                          [.getByID workoutID, .getOwner workoutID, .update updated])

/-- HandleUpdateWorkoutByID (PUT): on a ReadIDParam error the source
writes a 400 response but has no return statement, so execution continues
into the rest of the handler with workoutID holding the zero value that
ReadIDParam returned alongside the error. -/
def HandleUpdateWorkoutByID (st : StoreBehavior) (idParam : String)
    (body : Except Unit UpdateWorkoutRequest) (currentUser : CurrentUser) :
    List Response × List StoreCall :=
  match ReadIDParam idParam with
  | .ok workoutID => updateCore st workoutID body currentUser
  | .error _ =>
      (⟨400, .jsonMsg "error" "Invalid workout update id"⟩ :: (updateCore st 0 body currentUser).1,
        (updateCore st 0 body currentUser).2)

/-- HandleDeleteWorkoutByID (DELETE): reads the id parameter directly via
chi.URLParam and strconv.ParseInt, answering http.NotFound (404) when it
is missing or malformed; rejects nil or anonymous identity with 400; then
probes ownership and deletes. -/
def HandleDeleteWorkoutByID (st : StoreBehavior) (idParam : String)
    (currentUser : CurrentUser) : List Response × List StoreCall :=
  if idParam = "" then ([⟨404, .text "404 page not found"⟩], [])
  else
    match parseInt64 idParam with
    | none => ([⟨404, .text "404 page not found"⟩], [])
    | some workoutID =>
        match currentUser with
        | .missing => ([⟨400, .jsonMsg "error" "you must be logged in to update"⟩], [])
        | .anonymous => ([⟨400, .jsonMsg "error" "you must be logged in to update"⟩], [])
        | .user u =>
            match st.getWorkoutOwner workoutID with
            | .noRows =>
                ([⟨400, .jsonMsg "error" "workout does not exists"⟩], [.getOwner workoutID])
            | .otherErr =>
                ([⟨500, .jsonMsg "error" "internal server error"⟩], [.getOwner workoutID])
            | .ok workoutOwner =>
                if workoutOwner ≠ u.ID then
                  ([⟨403, .jsonMsg "error" "you are not authorized to delete this workout"⟩],
                    [.getOwner workoutID])
                else
                  match st.deleteWorkout workoutID with
                  | .noRows => ([⟨404, .text "Workout not found"⟩], [.getOwner workoutID, .delete workoutID])
                  | .otherErr => ([⟨500, .text "error deleting the workout"⟩], [.getOwner workoutID, .delete workoutID])
                  | .ok => ([⟨204, .empty⟩], [.getOwner workoutID, .delete workoutID])

/-- A token record as persisted: hash of the secret (never the secret),
owning user id, expiry instant, scope tag. -/
structure TokenRecord where
  hash : String
  userID : Int
  expiry : Nat
  scope : String
deriving DecidableEq, Repr

/-- Persisted token and user tables. -/
structure TokenState where
  tokens : List TokenRecord
  users : List User
deriving Repr

/-- Validation failures of the token service. -/
inductive TokenError where
  | notFound
  | expired
  | scopeMismatch
  | orphanedToken
deriving DecidableEq, Repr

/-- Modelled from the spec: the token service implementation is not under
src.  Spec section 4.2 IssueToken: generate a secret, persist its hash
with the user id, expiry now plus ttl and the scope, and hand the
plaintext back exactly once.  The one-way hash is a parameter h. -/
def IssueToken (h : String → String) (st : TokenState) (secret : String)
    (userID : Int) (ttl : Nat) (scope : String) (now : Nat) : String × TokenState :=
  (secret,
    { st with tokens := ⟨h secret, userID, now + ttl, scope⟩ :: st.tokens })

/-- Modelled from the spec: spec section 4.2 ValidateToken: hash the
presented value with the same function, look up by hash; notFound when no
record matches, expired when now is past the expiry, scopeMismatch when
the scope differs, orphanedToken when the user row is gone, otherwise the
associated user. -/
def ValidateToken (h : String → String) (st : TokenState) (plaintext : String)
    (requiredScope : String) (now : Nat) : Except TokenError User :=
  match st.tokens.find? (fun r => r.hash == h plaintext) with
  | none => .error .notFound
  | some r =>
      if r.expiry < now then .error .expired
      else if r.scope ≠ requiredScope then .error .scopeMismatch
      else
        match st.users.find? (fun x => x.ID == r.userID) with
        | none => .error .orphanedToken
        | some x => .ok x

/-- Fixture: a stored workout with id 1 owned by user 7. -/
def wkA : Workout := ⟨1, 7, "a", "b", 30, 100, []⟩

/-- Fixture: an update request body with every field absent. -/
def updNone : UpdateWorkoutRequest := ⟨none, none, none, none, none⟩

/-- Fixture: a store whose ownership probe reports owner 2 and whose reads
find wkA. -/
def stOwned2 : StoreBehavior :=
  ⟨fun _ => .ok (some wkA), fun _ => .ok 2, fun w => .ok w, fun _ => .ok (), fun _ => .ok⟩

/-- Fixture: a store with no rows at all. -/
def stAbsent : StoreBehavior :=
  ⟨fun _ => .ok none, fun _ => .noRows, fun w => .ok w, fun _ => .ok (), fun _ => .ok⟩

/-- Fixture: a store whose fetch still sees wkA but whose ownership probe
reports no row. -/
def stGone : StoreBehavior :=
  ⟨fun _ => .ok (some wkA), fun _ => .noRows, fun w => .ok w, fun _ => .ok (), fun _ => .ok⟩

/-- Fixture: a store where the workout fetch fails. -/
def stErr : StoreBehavior :=
  ⟨fun _ => .error (), fun _ => .otherErr, fun w => .ok w, fun _ => .ok (), fun _ => .ok⟩

/-- Fixture: a store whose reads find wkA and whose probe reports owner 7. -/
def stOwned7 : StoreBehavior :=
  ⟨fun _ => .ok (some wkA), fun _ => .ok 7, fun w => .ok w, fun _ => .ok (), fun _ => .ok⟩

theorem ReadIDParam_ok_iff (idParam : String) (id : Int) :
    ReadIDParam idParam = .ok id ↔ idParam ≠ "" ∧ parseInt64 idParam = some id := by
  unfold ReadIDParam
  by_cases h : idParam = ""
  · simp [h]
  · simp only [if_neg h]
    cases hp : parseInt64 idParam <;> simp [hp, h]

theorem updateCore_calls_head (st : StoreBehavior) (wid : Int)
    (bodyU : Except Unit UpdateWorkoutRequest) (cu : CurrentUser) :
    (updateCore st wid bodyU cu).2.head? = some (.getByID wid) := by
  unfold updateCore
  repeat' split
  all_goals simp only []
  all_goals try rfl
  all_goals split <;> rfl

theorem updateCore_anonymous_calls (st : StoreBehavior) (wid : Int)
    (bodyU : Except Unit UpdateWorkoutRequest) (cu : CurrentUser)
    (hcu : cu = .anonymous ∨ cu = .missing) :
    (updateCore st wid bodyU cu).2 = [.getByID wid] := by
  rcases hcu with h | h <;> subst h <;>
  · unfold updateCore
    cases hg : st.getWorkoutByID wid with
    | error e => rfl
    | ok w =>
      cases w with
      | none => rfl
      | some ew =>
        cases bodyU with
        | error e => rfl
        | ok up => rfl

/-- C1: an authenticated user whose id differs from the recorded owner receives
a 403 response from both the update and the delete handler, neither run makes
an UpdateWorkout or DeleteWorkout call, and replaying the call trace against
the store-call semantics leaves the stored rows unchanged. -/
theorem foreignOwner_forbidden_no_mutation
    (st : StoreBehavior) (idParam : String) (upd : UpdateWorkoutRequest)
    (u : User) (existing : Workout) (owner id : Int) (rows : List Workout)
    (hid : ReadIDParam idParam = .ok id)
    (hget : st.getWorkoutByID id = .ok (some existing))
    (howner : st.getWorkoutOwner id = .ok owner)
    (hne : owner ≠ u.ID) :
    (HandleUpdateWorkoutByID st idParam (.ok upd) (.user u)).1
        = [⟨403, .jsonMsg "error" "you are not authorized to update this workout"⟩]
    ∧ (∀ c ∈ (HandleUpdateWorkoutByID st idParam (.ok upd) (.user u)).2, c.isMutation = false)
    ∧ applyCalls rows (HandleUpdateWorkoutByID st idParam (.ok upd) (.user u)).2 = rows
    ∧ (HandleDeleteWorkoutByID st idParam (.user u)).1
        = [⟨403, .jsonMsg "error" "you are not authorized to delete this workout"⟩]
    ∧ (∀ c ∈ (HandleDeleteWorkoutByID st idParam (.user u)).2, c.isMutation = false)
    ∧ applyCalls rows (HandleDeleteWorkoutByID st idParam (.user u)).2 = rows := by
  obtain ⟨hempty, hparse⟩ := (ReadIDParam_ok_iff idParam id).mp hid
  have hu : HandleUpdateWorkoutByID st idParam (.ok upd) (.user u)
      = ([⟨403, .jsonMsg "error" "you are not authorized to update this workout"⟩],
          [.getByID id, .getOwner id]) := by
    unfold HandleUpdateWorkoutByID
    rw [hid]
    unfold updateCore
    simp only [hget, howner]
    rw [if_pos hne]
  have hd : HandleDeleteWorkoutByID st idParam (.user u)
      = ([⟨403, .jsonMsg "error" "you are not authorized to delete this workout"⟩],
          [.getOwner id]) := by
    unfold HandleDeleteWorkoutByID
    rw [if_neg hempty, hparse]
    simp only [howner]
    rw [if_pos hne]
  refine ⟨?_, ?_, ?_, ?_, ?_, ?_⟩
  · rw [hu]
  · rw [hu]; simp [StoreCall.isMutation]
  · rw [hu]; simp [applyCalls, applyCall]
  · rw [hd]
  · rw [hd]; simp [StoreCall.isMutation]
  · rw [hd]; simp [applyCalls, applyCall]

theorem foreignOwner_forbidden_no_mutation_witness :
    (HandleUpdateWorkoutByID stOwned2 "1" (.ok updNone) (.user ⟨7⟩)).1
      = [⟨403, .jsonMsg "error" "you are not authorized to update this workout"⟩] :=
  (foreignOwner_forbidden_no_mutation stOwned2 "1" updNone ⟨7⟩ wkA 2 1 []
    rfl rfl rfl (by decide)).1

/-- C2 (counterexample): with the Anonymous identity the create handler
answers status 400, not the claimed 401. -/
theorem anonymous_rejection_400_not_401 :
    (HandleCreateWorkout stOwned2 (.ok wkA) .anonymous).1
      = [⟨400, .jsonMsg "error" "you must be logged in"⟩]
    ∧ (400 : Nat) ≠ 401 := ⟨rfl, by decide⟩

/-- C2 (amended): with a nil or Anonymous identity the three protected
mutation handlers never make a mutating store call, and whenever the request
reaches the identity check the handler answers status 400 with the
"you must be logged in" message. -/
theorem anonymous_mutation_stops_with_400
    (st : StoreBehavior) (cu : CurrentUser) (bodyC : Except Unit Workout)
    (idParam : String) (bodyU : Except Unit UpdateWorkoutRequest)
    (hcu : cu = .anonymous ∨ cu = .missing) :
    (∀ c ∈ (HandleCreateWorkout st bodyC cu).2, c.isMutation = false)
    ∧ (∀ c ∈ (HandleUpdateWorkoutByID st idParam bodyU cu).2, c.isMutation = false)
    ∧ (∀ c ∈ (HandleDeleteWorkoutByID st idParam cu).2, c.isMutation = false)
    ∧ (∀ w, bodyC = .ok w →
        (HandleCreateWorkout st bodyC cu).1
          = [⟨400, .jsonMsg "error" "you must be logged in"⟩])
    ∧ (∀ id, ReadIDParam idParam = .ok id →
        HandleDeleteWorkoutByID st idParam cu
          = ([⟨400, .jsonMsg "error" "you must be logged in to update"⟩], []))
    ∧ (∀ id ew up, ReadIDParam idParam = .ok id →
        st.getWorkoutByID id = .ok (some ew) → bodyU = .ok up →
        (HandleUpdateWorkoutByID st idParam bodyU cu).1
          = [⟨400, .jsonMsg "error" "you must be logged in to update"⟩]) := by
  have hc2 : (HandleCreateWorkout st bodyC cu).2 = [] := by
    rcases hcu with h | h <;> subst h <;> cases bodyC <;> rfl
  have hcore : ∀ wid, (updateCore st wid bodyU cu).2 = [.getByID wid] :=
    fun wid => updateCore_anonymous_calls st wid bodyU cu hcu
  have hu2 : (HandleUpdateWorkoutByID st idParam bodyU cu).2 = [.getByID 0]
      ∨ ∃ wid, (HandleUpdateWorkoutByID st idParam bodyU cu).2 = [.getByID wid] := by
    unfold HandleUpdateWorkoutByID
    cases hr : ReadIDParam idParam with
    | ok wid => exact Or.inr ⟨wid, hcore wid⟩
    | error e => exact Or.inl (hcore 0)
  have hd2 : (HandleDeleteWorkoutByID st idParam cu).2 = [] := by
    rcases hcu with h | h <;> subst h <;>
    · unfold HandleDeleteWorkoutByID
      by_cases he : idParam = ""
      · rw [if_pos he]
      · rw [if_neg he]
        cases hp : parseInt64 idParam <;> rfl
  refine ⟨?_, ?_, ?_, ?_, ?_, ?_⟩
  · simp [hc2]
  · rcases hu2 with h | ⟨wid, h⟩ <;> simp [h, StoreCall.isMutation]
  · simp [hd2]
  · intro w hw
    subst hw
    rcases hcu with h | h <;> subst h <;> rfl
  · intro id hid
    obtain ⟨hempty, hparse⟩ := (ReadIDParam_ok_iff idParam id).mp hid
    unfold HandleDeleteWorkoutByID
    rw [if_neg hempty, hparse]
    rcases hcu with h | h <;> subst h <;> rfl
  · intro id ew up h1 h2 h3
    subst h3
    unfold HandleUpdateWorkoutByID
    rw [h1]
    unfold updateCore
    simp only [h2]
    rcases hcu with h | h <;> subst h <;> rfl

theorem anonymous_mutation_stops_with_400_witness :
    (HandleCreateWorkout stOwned2 (.ok wkA) CurrentUser.anonymous).1
      = [⟨400, .jsonMsg "error" "you must be logged in"⟩] :=
  (anonymous_mutation_stops_with_400 stOwned2 .anonymous (.ok wkA) "1" (.ok updNone)
    (Or.inl rfl)).2.2.2.1 wkA rfl

/-- C3: on a successful update, a body carrying only a title leads to an
UpdateWorkout call (and a 200 response) whose workout keeps the existing
description, duration, calories and entries, while a body carrying an
explicitly empty entries array leads to an UpdateWorkout call whose entry
collection is empty. -/
theorem partial_update_field_semantics
    (st : StoreBehavior) (idParam : String) (id : Int) (ew : Workout)
    (u : User) (t : String)
    (hid : ReadIDParam idParam = .ok id)
    (hget : st.getWorkoutByID id = .ok (some ew))
    (howner : st.getWorkoutOwner id = .ok u.ID)
    (hupd : ∀ w, st.updateWorkout w = .ok ()) :
    (HandleUpdateWorkoutByID st idParam (.ok ⟨some t, none, none, none, none⟩) (.user u)).2
      = [.getByID id, .getOwner id, .update { ew with Title := t, ID := id }]
    ∧ (HandleUpdateWorkoutByID st idParam (.ok ⟨some t, none, none, none, none⟩) (.user u)).1
      = [⟨200, .jsonWorkout (some { ew with Title := t, ID := id })⟩]
    ∧ ({ ew with Title := t, ID := id }).Description = ew.Description
    ∧ ({ ew with Title := t, ID := id }).DurationMinutes = ew.DurationMinutes
    ∧ ({ ew with Title := t, ID := id }).CaloriesBurned = ew.CaloriesBurned
    ∧ ({ ew with Title := t, ID := id }).Entries = ew.Entries
    ∧ (HandleUpdateWorkoutByID st idParam (.ok ⟨none, none, none, none, some []⟩) (.user u)).2
      = [.getByID id, .getOwner id, .update { ew with Entries := [], ID := id }] := by
  have hrun : ∀ up : UpdateWorkoutRequest,
      HandleUpdateWorkoutByID st idParam (.ok up) (.user u)
        = ([⟨200, .jsonWorkout (some { applyUpdateFields ew up with ID := id })⟩],
            [.getByID id, .getOwner id, .update { applyUpdateFields ew up with ID := id }]) := by
    intro up
    unfold HandleUpdateWorkoutByID
    rw [hid]
    unfold updateCore
    simp only [hget, howner]
    rw [if_neg (by simp)]
    simp only [hupd]
  refine ⟨?_, ?_, rfl, rfl, rfl, rfl, ?_⟩
  · rw [hrun]
    simp [applyUpdateFields]
  · rw [hrun]
    simp [applyUpdateFields]
  · rw [hrun]
    simp [applyUpdateFields]

theorem partial_update_field_semantics_witness :
    (HandleUpdateWorkoutByID stOwned7 "1" (.ok ⟨some "X", none, none, none, none⟩) (.user ⟨7⟩)).2
      = [.getByID 1, .getOwner 1, .update { wkA with Title := "X", ID := 1 }] :=
  (partial_update_field_semantics stOwned7 "1" 1 wkA ⟨7⟩ "X"
    rfl rfl rfl (fun _ => rfl)).1

/-- C4: for any decoded body and any authenticated caller, the create handler
makes exactly one CreateWorkout call, and the workout it passes carries the
caller's id as owner, whatever user id the body supplied. -/
theorem create_sets_owner_from_identity
    (st : StoreBehavior) (bodyWorkout : Workout) (u : User) :
    (HandleCreateWorkout st (.ok bodyWorkout) (.user u)).2
      = [.create { bodyWorkout with UserID := u.ID }]
    ∧ ({ bodyWorkout with UserID := u.ID }).UserID = u.ID := by
  constructor
  · cases hc : st.createWorkout { bodyWorkout with UserID := u.ID } <;>
      simp only [HandleCreateWorkout, hc]
  · rfl

/-- C5: the spec-modelled GetByID answers nil without an error on an absent
id, and the update handler maps a GetWorkoutByID error to a 500 response and
a nil result to a 404 response. -/
theorem getByID_nil_vs_error_distinguished
    (rows : List Workout) (qid : Int) (st : StoreBehavior) (idParam : String)
    (id : Int) (bodyU : Except Unit UpdateWorkoutRequest) (cu : CurrentUser)
    (habsent : rows.find? (fun r => r.ID == qid) = none)
    (hid : ReadIDParam idParam = .ok id) :
    specGetWorkoutByID rows qid = .ok none
    ∧ (st.getWorkoutByID id = .error () →
        (HandleUpdateWorkoutByID st idParam bodyU cu).1
          = [⟨500, .jsonMsg "error" "Internal server error"⟩])
    ∧ (st.getWorkoutByID id = .ok none →
        (HandleUpdateWorkoutByID st idParam bodyU cu).1
          = [⟨404, .text "404 page not found"⟩]) := by
  refine ⟨by simp [specGetWorkoutByID, habsent], ?_, ?_⟩
  · intro hg
    unfold HandleUpdateWorkoutByID
    rw [hid]
    unfold updateCore
    simp only [hg]
  · intro hg
    unfold HandleUpdateWorkoutByID
    rw [hid]
    unfold updateCore
    simp only [hg]

theorem getByID_nil_vs_error_distinguished_witness :
    (HandleUpdateWorkoutByID stAbsent "1" (.ok updNone) (.user ⟨7⟩)).1
      = [⟨404, .text "404 page not found"⟩] :=
  (getByID_nil_vs_error_distinguished [] 1 stAbsent "1" 1 (.ok updNone) (.user ⟨7⟩)
    rfl rfl).2.2 rfl

/-- C6 (counterexample): when the ownership probe reports no row, the delete
handler answers status 400, not the claimed 404. -/
theorem owner_probe_noRows_400_not_404 :
    (HandleDeleteWorkoutByID stGone "5" (.user ⟨7⟩)).1
      = [⟨400, .jsonMsg "error" "workout does not exists"⟩]
    ∧ (400 : Nat) ≠ 404 := ⟨rfl, by decide⟩

/-- C6 (amended): when GetWorkoutOwner reports sql.ErrNoRows, the update and
delete handlers answer status 400 with the "workout does not exists" message. -/
theorem owner_probe_noRows_responds_400
    (st : StoreBehavior) (idParam : String) (id : Int) (u : User)
    (ew : Workout) (up : UpdateWorkoutRequest)
    (hid : ReadIDParam idParam = .ok id)
    (hget : st.getWorkoutByID id = .ok (some ew))
    (hnorow : st.getWorkoutOwner id = .noRows) :
    (HandleUpdateWorkoutByID st idParam (.ok up) (.user u)).1
      = [⟨400, .jsonMsg "error" "workout does not exists"⟩]
    ∧ (HandleDeleteWorkoutByID st idParam (.user u)).1
      = [⟨400, .jsonMsg "error" "workout does not exists"⟩] := by
  obtain ⟨hempty, hparse⟩ := (ReadIDParam_ok_iff idParam id).mp hid
  constructor
  · unfold HandleUpdateWorkoutByID
    rw [hid]
    unfold updateCore
    simp only [hget, hnorow]
  · unfold HandleDeleteWorkoutByID
    rw [if_neg hempty, hparse]
    simp only [hnorow]

theorem owner_probe_noRows_responds_400_witness :
    (HandleDeleteWorkoutByID stGone "5" (.user ⟨9⟩)).1
      = [⟨400, .jsonMsg "error" "workout does not exists"⟩] :=
  (owner_probe_noRows_responds_400 stGone "5" 5 ⟨9⟩ wkA updNone rfl rfl rfl).2

/-- C7 (counterexample): on a malformed id the delete handler answers
http.NotFound, status 404, not the claimed 400. -/
theorem delete_malformed_id_404_not_400 :
    HandleDeleteWorkoutByID stOwned2 "abc" (.user ⟨7⟩)
      = ([⟨404, .text "404 page not found"⟩], [])
    ∧ (404 : Nat) ≠ 400 := ⟨rfl, by decide⟩

/-- C7 (amended): on an id parameter that is missing or fails base-10 64-bit
parsing, the get handler answers 400 with no store call, the delete handler
answers 404 with no store call, and the update handler writes a 400 response
first but then continues, its first store call being GetWorkoutByID with the
zero id. -/
theorem malformed_id_endpoint_behavior
    (st : StoreBehavior) (idParam : String) (msg : String)
    (bodyU : Except Unit UpdateWorkoutRequest) (cu : CurrentUser)
    (herr : ReadIDParam idParam = .error msg) :
    HandleWorkoutByID st idParam = ([⟨400, .jsonMsg "error" "Invalid workout id"⟩], [])
    ∧ HandleDeleteWorkoutByID st idParam cu = ([⟨404, .text "404 page not found"⟩], [])
    ∧ (HandleUpdateWorkoutByID st idParam bodyU cu).1.head?
        = some ⟨400, .jsonMsg "error" "Invalid workout update id"⟩
    ∧ (HandleUpdateWorkoutByID st idParam bodyU cu).2.head? = some (.getByID 0) := by
  have hbad : idParam = "" ∨ parseInt64 idParam = none := by
    by_cases he : idParam = ""
    · exact Or.inl he
    · right
      cases hp : parseInt64 idParam with
      | none => rfl
      | some v =>
          exact absurd herr (by simp [ReadIDParam, if_neg he, hp])
  refine ⟨?_, ?_, ?_, ?_⟩
  · unfold HandleWorkoutByID
    rw [herr]
  · unfold HandleDeleteWorkoutByID
    rcases hbad with he | hp
    · rw [if_pos he]
    · by_cases he : idParam = ""
      · rw [if_pos he]
      · rw [if_neg he, hp]
  · unfold HandleUpdateWorkoutByID
    rw [herr]
    rfl
  · unfold HandleUpdateWorkoutByID
    rw [herr]
    exact updateCore_calls_head st 0 bodyU cu


theorem malformed_id_endpoint_behavior_witness :
    HandleDeleteWorkoutByID stOwned2 "abc" (.user ⟨7⟩)
      = ([⟨404, .text "404 page not found"⟩], []) :=
  (malformed_id_endpoint_behavior stOwned2 "abc" "Invalid id parameter type"
    (.ok updNone) (.user ⟨7⟩) rfl).2.1

/-- C8: validating, with the issuing scope and at the issuance instant, the
plaintext returned by IssueToken for user u against the state IssueToken
produced returns u, provided the user table still resolves u's id to u. -/
theorem issue_validate_roundTrip
    (h : String → String) (st : TokenState) (secret : String) (u : User)
    (ttl : Nat) (scope : String) (now : Nat)
    (huser : st.users.find? (fun x => x.ID == u.ID) = some u) :
    ValidateToken h (IssueToken h st secret u.ID ttl scope now).2
      (IssueToken h st secret u.ID ttl scope now).1 scope now = .ok u := by
  unfold IssueToken ValidateToken
  simp only []
  rw [List.find?_cons_of_pos _ (by simp)]
  simp [Nat.not_lt.mpr (Nat.le_add_right now ttl), huser]

theorem issue_validate_roundTrip_witness :
    ValidateToken id (IssueToken id ⟨[], [⟨42⟩]⟩ "tok" 42 24 "api" 0).2
      (IssueToken id ⟨[], [⟨42⟩]⟩ "tok" 42 24 "api" 0).1 "api" 0 = .ok ⟨42⟩ :=
  issue_validate_roundTrip id ⟨[], [⟨42⟩]⟩ "tok" ⟨42⟩ 24 "api" 0 rfl

/-- C9: when the id parses and the store fetch returns without error, the get
handler answers 200 with the store result in the envelope, including a null
workout when the store found none. -/
theorem get_ok_200_with_store_result
    (st : StoreBehavior) (idParam : String) (id : Int) (wOpt : Option Workout)
    (hid : ReadIDParam idParam = .ok id)
    (hget : st.getWorkoutByID id = .ok wOpt) :
    HandleWorkoutByID st idParam = ([⟨200, .jsonWorkout wOpt⟩], [.getByID id]) := by
  unfold HandleWorkoutByID
  rw [hid]
  simp only [hget]

theorem get_ok_200_with_store_result_witness :
    HandleWorkoutByID stAbsent "1" = ([⟨200, .jsonWorkout none⟩], [.getByID 1]) :=
  get_ok_200_with_store_result stAbsent "1" 1 none rfl rfl

/-- C10: evaluated at the failing input — the id parameter "abc" against a
store that has no workout with id 0 — the update handler writes two responses,
a 400 then a 404, and still makes a GetWorkoutByID store call, because the
source's malformed-id branch lacks a return statement. -/
theorem update_malformed_id_two_responses :
    HandleUpdateWorkoutByID stAbsent "abc" (.ok updNone) (.user ⟨7⟩)
      = ([⟨400, .jsonMsg "error" "Invalid workout update id"⟩,
          ⟨404, .text "404 page not found"⟩], [.getByID 0]) := rfl
